import Mathlib

/-!
# DresGuardian moderation engine: a shallow embedding

This file embeds the state engine of the DresGuardian group-chat bot
(`dresguardian.py`): the persistent store, the warn ledger, the global
blacklist, the banned-word filter, the welcome renderer, the AI request
gate, the target resolver and the mute-duration parser.  Dictionaries
keyed by `str(chat_id)` or by the `f"{chat_id}:{user_id}"` warn key are
modelled as functions `String → Option α`; Python truthiness on optional
strings is modelled explicitly.  Transport-layer effects (sending,
muting, member lookup) are modelled as opaque parameters or recorded in
the results of the embedded functions.
-/

namespace Dres

/-- Python truthiness of an optional string: `None` and `""` are falsy. -/
def truthyStr : Option String → Bool
  | none => false
  | some s => !s.data.isEmpty

/-- ASCII lowercasing of one character, as Python `str.lower` acts on
the ASCII range handled by this program. -/
def lowerChar (c : Char) : Char :=
  if c.toNat ≥ 65 ∧ c.toNat ≤ 90 then Char.ofNat (c.toNat + 32) else c

/-- Python `str.lower` (over the ASCII range). -/
def lowerStr (s : String) : String := String.mk (s.data.map lowerChar)

/-! ## AI request gate (`can_use_ai`, lines 136-148)

The gate keeps, per user, the timestamp of the last granted request.
`COOLDOWN = 1.5` seconds.  The read-check-and-update runs under a
per-user `asyncio.Lock`, so two overlapping calls for one user execute
their critical sections in one of the two sequential orders; the model
below is that critical section as a pure state transformer on the
stored timestamp (time is modelled as rational seconds). -/

/-- The cooldown interval of the AI gate, 1.5 seconds. -/
def COOLDOWN : ℚ := 3 / 2

/-- One critical section of `can_use_ai` for a fixed user: given the
stored last-granted timestamp and the current time, return whether the
request is granted together with the new stored timestamp. -/
def tryAcquire (last : Option ℚ) (now : ℚ) : Bool × Option ℚ :=
  match last with
  | none => (true, some now)
  | some l => if COOLDOWN ≤ now - l then (true, some now) else (false, some l)

/-! ## Warn ledger (`add_warn` / `remove_warn` / `get_warn_count`,
lines 177-192) -/

/-- The warn dictionary: the Python dict `STORE["warns"]`, keyed by
`f"{chat_id}:{user_id}"`, holding integer counts. -/
abbrev Warns := String → Option ℤ

/-- The key `f"{chat_id}:{user_id}"`. -/
def warnKey (chat user : ℤ) : String := toString chat ++ ":" ++ toString user

/-- Function `add_warn`: increments the count for (chat, user), treating an
absent entry as 0, and returns the new count with the new dictionary. -/
def add_warn (w : Warns) (chat user : ℤ) : ℤ × Warns :=
  let k := warnKey chat user
  let n := (w k).getD 0 + 1
  (n, fun k2 => if k2 = k then some n else w k2)

/-- Function `remove_warn`: when the entry exists, decrements it and deletes the
entry when the result is ≤ 0; absent entries are left untouched. -/
def remove_warn (w : Warns) (chat user : ℤ) : Warns :=
  let k := warnKey chat user
  match w k with
  | none => w
  | some v =>
    if v - 1 ≤ 0 then fun k2 => if k2 = k then none else w k2
    else fun k2 => if k2 = k then some (v - 1) else w k2

/-- Function `get_warn_count`: the stored count, 0 when absent. -/
def get_warn_count (w : Warns) (chat user : ℤ) : ℤ :=
  (w (warnKey chat user)).getD 0

/-- The outcome of one `/warn` command on the ledger (the `warn`
handler, lines 294-308): the count returned by `add_warn`, whether the
escalation fired, the mute length in seconds when it did, and the
resulting dictionary (escalation pops the entry). -/
structure WarnOutcome where
  count : ℤ
  muted : Bool
  muteSeconds : ℤ
  warns : Warns

/-- The ledger/escalation core of the `warn` handler: `add_warn`, then,
when the returned count is ≥ 3, a 1-hour (3600 s) mute and deletion of
the entry. -/
def warn_command (w : Warns) (chat user : ℤ) : WarnOutcome :=
  let r := add_warn w chat user
  if 3 ≤ r.1 then
    ⟨r.1, true, 3600, fun k2 => if k2 = warnKey chat user then none else r.2 k2⟩
  else ⟨r.1, false, 0, r.2⟩

/-! ## Banned-word filter (`has_banned_word`, lines 161-163; `addword`,
lines 388-400)

Python's substring test `needle in hay` is modelled on character lists
by `startsWithL` / `occursL`. -/

/-- Tests that `needle` is a prefix of `hay` (character lists). -/
def startsWithL : List Char → List Char → Bool
  | [], _ => true
  | _ :: _, [] => false
  | c :: cs, d :: ds => c == d && startsWithL cs ds

/-- Tests that `needle` occurs as a contiguous substring of `hay` (Python's
`needle in hay`, which is true for an empty needle). -/
def occursL (needle : List Char) : List Char → Bool
  | [] => startsWithL needle []
  | d :: ds => startsWithL needle (d :: ds) || occursL needle ds

/-- Python `needle in hay` on strings. -/
def strOccurs (needle hay : String) : Bool := occursL needle.data hay.data

/-- Python `s.startswith(pre)` on strings. -/
def startsWithStr (s pre : String) : Bool := startsWithL pre.data s.data

/-- Replace every (non-overlapping, left-to-right) occurrence of `pat`
by `rep`, with explicit fuel to keep the recursion structural; Python
`str.replace` with a non-empty pattern.  The fuel is consumed one step
per emitted character group, so `hay.length` fuel always suffices. -/
def replaceFuel (pat rep : List Char) : ℕ → List Char → List Char
  | 0, hay => hay
  | _ + 1, [] => []
  | f + 1, c :: rest =>
    if startsWithL pat (c :: rest) && !pat.isEmpty then
      rep ++ replaceFuel pat rep f ((c :: rest).drop pat.length)
    else c :: replaceFuel pat rep f rest

/-- Python `s.replace(pat, rep)` (non-empty `pat`). -/
def replaceAll (s pat rep : String) : String :=
  String.mk (replaceFuel pat.data rep.data s.data.length s.data)

/-- The per-chat banned-word dictionary `STORE["banned_words"]`, keyed
by `str(chat_id)`. -/
abbrev BannedWords := String → Option (List String)

/-- The stored word list of a chat, `[]` when absent. -/
def wordsOf (bw : BannedWords) (chat : ℤ) : List String :=
  (bw (toString chat)).getD []

/-- Function `has_banned_word`: some stored word of the chat, lowercased, occurs
in the lowercased text. -/
def has_banned_word (bw : BannedWords) (chat : ℤ) (text : String) : Bool :=
  (wordsOf bw chat).any fun w => strOccurs (lowerStr w) (lowerStr text)

/-- The store mutation of the `addword` handler: the argument text is
lowercased; the chat's list is created when absent; the word is
appended only when not already present. -/
def addword (bw : BannedWords) (chat : ℤ) (argText : String) : BannedWords :=
  let word := lowerStr argText
  let cur := wordsOf bw chat
  if word ∈ cur then fun k => if k = toString chat then some cur else bw k
  else fun k => if k = toString chat then some (cur ++ [word]) else bw k

/-! ## Welcome system (lines 417-519) -/

/-- A per-chat welcome configuration (`STORE["welcomes"][chat]`): every
field optional, matching the Python dict whose keys may be absent. -/
structure WelcomeCfg where
  text : Option String
  media : Option String
  mtype : Option String
  link : Option String

/-- The all-absent configuration (`{}`). -/
def emptyCfg : WelcomeCfg := ⟨none, none, none, none⟩

/-- The welcome dictionary `STORE["welcomes"]`, keyed by
`str(chat_id)`. -/
abbrev Welcomes := String → Option WelcomeCfg

/-- A chat member as the welcome code uses it: numeric id, first name
(a string, possibly empty), optional username, the transport-supplied
HTML mention, and the bot flag. -/
structure Member where
  id : ℤ
  first_name : String
  username : Option String
  mention : String
  is_bot : Bool
deriving DecidableEq

/-- The substitution chain of `_send_welcome` (lines 473-477): the four
placeholders replaced in source order, with `{first}` falling back to
"User" for a falsy first name and `{username}` falling back to the raw
first name when the username is falsy. -/
def renderText (tpl : String) (m : Member) : String :=
  replaceAll
    (replaceAll
      (replaceAll
        (replaceAll tpl "{first}" (if m.first_name.data.isEmpty then "User" else m.first_name))
        "{mention}" m.mention)
      "{id}" (toString m.id))
    "{username}"
    (match m.username with
     | some u => if u.data.isEmpty then m.first_name else "@" ++ u
     | none => m.first_name)

/-- What `_send_welcome` sends for one member: final text, optional
media reference with its kind (kind defaulting to "photo"), optional
join-channel link (present exactly when the stored link is truthy). -/
structure Rendered where
  text : String
  media : Option (String × String)
  link : Option String
deriving DecidableEq

/-- The rendering core of `_send_welcome` (lines 467-500) for one
member: `None` when the chat's configuration has no truthy `text`
(media or link alone produce nothing), otherwise the substituted text
together with the media and link the send would carry. -/
def render (ws : Welcomes) (chat : ℤ) (m : Member) : Option Rendered :=
  let cfg := (ws (toString chat)).getD emptyCfg
  if truthyStr cfg.text then
    some ⟨renderText (cfg.text.getD "") m,
          if truthyStr cfg.media then some ((cfg.media).getD "", (cfg.mtype).getD "photo")
          else none,
          if truthyStr cfg.link then cfg.link else none⟩
  else none

/-- The store mutation of `setwelcometext` (lines 418-427): set the
`text` field, creating the chat's configuration when absent. -/
def setwelcometext (ws : Welcomes) (chat : ℤ) (argText : String) : Welcomes :=
  let cfg := (ws (toString chat)).getD emptyCfg
  fun k => if k = toString chat then some ⟨some argText, cfg.media, cfg.mtype, cfg.link⟩
           else ws k

/-- The link normalization of `setchannellink` (lines 453-455): the
"https://" prefix is prepended only when the argument starts with
neither "http" nor "t.me". -/
def normalizeLink (link : String) : String :=
  if startsWithStr link "http" || startsWithStr link "t.me" then link
  else "https://" ++ link

/-- The store mutation of `setchannellink` (lines 447-458): store the
normalized link in the chat's configuration. -/
def setchannellink (ws : Welcomes) (chat : ℤ) (arg : String) : Welcomes :=
  let cfg := (ws (toString chat)).getD emptyCfg
  fun k => if k = toString chat then
             some ⟨cfg.text, cfg.media, cfg.mtype, some (normalizeLink arg)⟩
           else ws k

/-! ## Blacklist and join handlers (lines 158-159, 504-519)

`is_globally_blacklisted` tests membership of the in-memory set; the
set is modelled as a list of user ids.  The two join-notification
handlers are modelled by the list of welcome messages they produce:
`legacy_welcome` renders for every member of a `new_chat_members`
service message, `welcome_new_member` renders for the update's
`from_user` after its status and blacklist guards. -/

/-- Function `is_globally_blacklisted`: membership of the set. -/
def is_globally_blacklisted (bl : List ℤ) (user : ℤ) : Bool := user ∈ bl

/-- Chat-member statuses as the `welcome_new_member` guard uses them. -/
inductive MemberStatus
  | owner | administrator | member | restricted | left | banned
deriving DecidableEq

/-- A `chat_member` update: the acting user, the subject's old status
(absent when no old record exists) and new status. -/
structure ChatMemberEvt where
  from_user : Member
  old_status : Option MemberStatus
  new_status : MemberStatus

/-- The `legacy_welcome` handler (lines 504-506): every user of the
`new_chat_members` list is welcomed through `_send_welcome`, with no
blacklist or bot check. -/
def legacy_welcome (ws : Welcomes) (chat : ℤ) (members : List Member) : List Rendered :=
  members.filterMap fun m => render ws chat m

/-- The `welcome_new_member` handler (lines 508-519): nothing is sent
when the old status was member/administrator/owner, when the new status
is not member, or when the acting user is a bot or globally
blacklisted; otherwise `_send_welcome` runs for that user. -/
def welcome_new_member (ws : Welcomes) (bl : List ℤ) (chat : ℤ) (e : ChatMemberEvt) :
    List Rendered :=
  let oldJoined : Bool := match e.old_status with
    | some s => s = MemberStatus.member || s = MemberStatus.administrator ||
        s = MemberStatus.owner
    | none => false
  if oldJoined || e.new_status ≠ MemberStatus.member then []
  else if e.from_user.is_bot || is_globally_blacklisted bl e.from_user.id then []
  else (render ws chat e.from_user).toList

/-! ## Persistent store loader (`load_store`, lines 56-67) -/

/-- The warn-ledger dictionary together with the other three top-level
fields: the in-memory `STORE` document. -/
structure Doc where
  welcomes : Welcomes
  blacklist : List ℤ
  banned_words : BannedWords
  warns : Warns

/-- The default document `{"welcomes": {}, "blacklist": [],
"banned_words": {}, "warns": {}}`. -/
def defaultDoc : Doc := ⟨fun _ => none, [], fun _ => none, fun _ => none⟩

/-- A parsed snapshot in which any of the four top-level fields may be
missing (`data.setdefault` fills the missing ones). -/
structure RawDoc where
  welcomes : Option Welcomes
  blacklist : Option (List ℤ)
  banned_words : Option BannedWords
  warns : Option Warns

/-- What the loader can encounter: no snapshot file, a snapshot that
fails to parse as a document (any exception inside the `try` block),
or a parsed document with possibly missing fields. -/
inductive Snapshot
  | missing
  | corrupt
  | parsed (d : RawDoc)

/-- Function `load_store`: defaults when the file is missing or unreadable,
otherwise the parsed document with missing fields substituted by
defaults. -/
def load_store : Snapshot → Doc
  | .missing => defaultDoc
  | .corrupt => defaultDoc
  | .parsed d =>
    ⟨d.welcomes.getD defaultDoc.welcomes, d.blacklist.getD defaultDoc.blacklist,
     d.banned_words.getD defaultDoc.banned_words, d.warns.getD defaultDoc.warns⟩

/-! ## Target resolver (`get_target_user`, lines 194-211)

Transport-layer lookups (`get_chat_member` by handle or by numeric id)
are opaque oracles returning `none` on any failure — the code catches
every exception of a lookup and falls through. -/

/-- Python `int(arg)` on the strings this code feeds it: an optional
sign followed by at least one ASCII digit; anything else raises, which
the caller turns into a fall-through (`none`). -/
def digitsToNat (ds : List Char) : ℕ :=
  ds.foldl (fun a c => 10 * a + (c.toNat - 48)) 0

/-- Python `int(arg)` as an option. -/
def parseInt (s : String) : Option ℤ :=
  match s.data with
  | [] => none
  | '-' :: ds =>
    if !ds.isEmpty && ds.all Char.isDigit then some (-(digitsToNat ds : ℤ)) else none
  | '+' :: ds =>
    if !ds.isEmpty && ds.all Char.isDigit then some (digitsToNat ds : ℤ) else none
  | ds => if ds.all Char.isDigit then some (digitsToNat ds : ℤ) else none

/-- Function `get_target_user`: the reply's author when the message is a reply;
otherwise the first argument resolved as a handle (only when it starts
with "@", via the handle oracle `rh`) and, failing that, as a numeric
id (via the id oracle `ri`); `none` when everything fails.  A handle
argument that the transport cannot resolve also fails the numeric
branch, since `int` rejects a string starting with "@". -/
def get_target_user (rh : String → Option Member) (ri : ℤ → Option Member)
    (reply : Option Member) (args : List String) : Option Member :=
  match reply with
  | some u => some u
  | none =>
    match args with
    | [] => none
    | arg :: _ =>
      match (if startsWithStr arg "@" then rh arg else none) with
      | some u => some u
      | none =>
        match parseInt arg with
        | some n => ri n
        | none => none

/-! ## Mute-duration parser (`parse_duration`, lines 165-175)

`re.match(r"(\d+)([smhd]?)", s.lower())` takes the maximal leading
digit run of the lowercased string and then one optional unit
character; no match (no leading digit) gives the 1-hour default, and a
missing unit defaults to hours.  Durations are in seconds. -/

/-- Seconds per unit character. -/
def unitSeconds (unit : Char) (num : ℕ) : ℕ :=
  if unit = 's' then num
  else if unit = 'm' then num * 60
  else if unit = 'h' then num * 3600
  else if unit = 'd' then num * 86400
  else 3600

/-- The unit character matched by `([smhd]?)` right after the digits:
the next character when it is one of s, m, h, d, else the default h. -/
def unitOf : List Char → Char
  | c :: _ => if c = 's' ∨ c = 'm' ∨ c = 'h' ∨ c = 'd' then c else 'h'
  | [] => 'h'

/-- Function `parse_duration`, returning whole seconds. -/
def parse_duration (s : String) : ℕ :=
  let l := (lowerStr s).data
  let digits := l.takeWhile Char.isDigit
  if digits.isEmpty then 3600
  else unitSeconds (unitOf (l.dropWhile Char.isDigit)) (digitsToNat digits)

/-! ## Specification-level predicates -/

/-- Holds when `needle` occurs as a contiguous substring of `hay`: some
decomposition `hay = pre ++ needle ++ post` exists. -/
def OccursIn (needle hay : String) : Prop :=
  ∃ pre post, hay.data = pre ++ needle.data ++ post

/-! ## Concrete scenario inputs -/

/-- The welcome store after `setwelcometext(chat=5, "Welcome {first}!")`
on a fresh document. -/
def scenarioWelcomes : Welcomes := setwelcometext (fun _ => none) 5 "Welcome {first}!"

/-- The stored configuration of chat 5 in `scenarioWelcomes`. -/
def scenarioCfg : WelcomeCfg := (scenarioWelcomes (toString (5 : ℤ))).getD emptyCfg

/-- A joining member named Bob with no username. -/
def bobMember : Member := ⟨7, "Bob", none, "<a>Bob</a>", false⟩

end Dres

namespace Dres

/-! ## Helper lemmas -/

/-- Lemma: `startsWithL` decides the prefix relation. -/
theorem startsWithL_eq_true_iff (needle : List Char) :
    ∀ hay, startsWithL needle hay = true ↔ ∃ rest, hay = needle ++ rest := by
  induction needle with
  | nil =>
    intro hay
    simp [startsWithL]
  | cons c cs ih =>
    intro hay
    cases hay with
    | nil =>
      simp [startsWithL]
    | cons d ds =>
      simp only [startsWithL, Bool.and_eq_true, beq_iff_eq, ih ds]
      constructor
      · rintro ⟨rfl, rest, rfl⟩
        exact ⟨rest, rfl⟩
      · rintro ⟨rest, h⟩
        injection h with h1 h2
        exact ⟨h1.symm, rest, h2⟩

/-- Lemma: `occursL` decides substring occurrence. -/
theorem occursL_eq_true_iff (needle : List Char) :
    ∀ hay, occursL needle hay = true ↔ ∃ pre post, hay = pre ++ needle ++ post := by
  intro hay
  induction hay with
  | nil =>
    simp only [occursL, startsWithL_eq_true_iff]
    constructor
    · rintro ⟨rest, h⟩
      exact ⟨[], rest, by simpa using h⟩
    · rintro ⟨pre, post, h⟩
      exact ⟨post ++ pre, by simp at h ⊢; tauto⟩
  | cons d ds ih =>
    simp only [occursL, Bool.or_eq_true, startsWithL_eq_true_iff, ih]
    constructor
    · rintro (⟨rest, h⟩ | ⟨pre, post, h⟩)
      · exact ⟨[], rest, by simpa using h⟩
      · exact ⟨d :: pre, post, by simp [h]⟩
    · rintro ⟨pre, post, h⟩
      cases pre with
      | nil =>
        exact Or.inl ⟨post, by simpa using h⟩
      | cons p ps =>
        injection h with h1 h2
        exact Or.inr ⟨ps, post, h2⟩

/-- Lemma: `takeWhile` and `dropWhile` split a list at the first failure of
the predicate. -/
theorem takeWhile_dropWhile_append (p : Char → Bool) :
    ∀ ds rest : List Char,
      (∀ c ∈ ds, p c = true) → (∀ c, rest.head? = some c → p c = false) →
      (ds ++ rest).takeWhile p = ds ∧ (ds ++ rest).dropWhile p = rest := by
  intro ds
  induction ds with
  | nil =>
    intro rest _ hrest
    cases rest with
    | nil => simp
    | cons c cs =>
      have hc : p c = false := hrest c rfl
      simp [List.takeWhile, List.dropWhile, hc]
  | cons d ds ih =>
    intro rest hds hrest
    have hd : p d = true := hds d (List.mem_cons_self d ds)
    have := ih rest (fun c hc => hds c (List.mem_cons_of_mem d hc)) hrest
    simp [List.takeWhile, List.dropWhile, hd, this.1, this.2]

/-! ## C1: the AI request gate under concurrency -/

/-- C1: two concurrent `tryAcquire` critical sections for the same
user, executed at times within the cooldown window of each other and
starting from a state in which the earlier call is granted, yield
exactly one `true` under either serialization order the per-user lock
can produce. -/
theorem tryAcquire_concurrent_exclusive (last : Option ℚ) (t1 t2 : ℚ)
    (hle : t1 ≤ t2) (hwin : t2 - t1 < COOLDOWN)
    (hfirst : (tryAcquire last t1).1 = true) :
    ((tryAcquire last t1).1 = true ∧ (tryAcquire (tryAcquire last t1).2 t2).1 = false) ∧
    ((tryAcquire last t2).1 = true ∧ (tryAcquire (tryAcquire last t2).2 t1).1 = false) := by
  have hC : (0 : ℚ) < COOLDOWN := by norm_num [COOLDOWN]
  cases last with
  | none =>
    refine ⟨⟨rfl, ?_⟩, rfl, ?_⟩
    · show (tryAcquire (some t1) t2).1 = false
      simp only [tryAcquire]
      rw [if_neg (by linarith : ¬ COOLDOWN ≤ t2 - t1)]
    · show (tryAcquire (some t2) t1).1 = false
      simp only [tryAcquire]
      rw [if_neg (by linarith : ¬ COOLDOWN ≤ t1 - t2)]
  | some l =>
    have hgrant : COOLDOWN ≤ t1 - l := by
      by_contra hno
      simp only [tryAcquire] at hfirst
      rw [if_neg hno] at hfirst
      exact Bool.false_ne_true hfirst
    have h1 : tryAcquire (some l) t1 = (true, some t1) := by
      simp only [tryAcquire]
      rw [if_pos hgrant]
    have h2 : tryAcquire (some l) t2 = (true, some t2) := by
      simp only [tryAcquire]
      rw [if_pos (by linarith : COOLDOWN ≤ t2 - l)]
    refine ⟨⟨by rw [h1], ?_⟩, by rw [h2], ?_⟩
    · rw [h1]
      show (tryAcquire (some t1) t2).1 = false
      simp only [tryAcquire]
      rw [if_neg (by linarith : ¬ COOLDOWN ≤ t2 - t1)]
    · rw [h2]
      show (tryAcquire (some t2) t1).1 = false
      simp only [tryAcquire]
      rw [if_neg (by linarith : ¬ COOLDOWN ≤ t1 - t2)]

/-- C1 witness: a fresh user at times 0 and 1 seconds. -/
theorem tryAcquire_concurrent_exclusive_witness :
    ((tryAcquire none 0).1 = true ∧ (tryAcquire (tryAcquire none 0).2 1).1 = false) ∧
    ((tryAcquire none 1).1 = true ∧ (tryAcquire (tryAcquire none 1).2 0).1 = false) :=
  tryAcquire_concurrent_exclusive none 0 1 (by norm_num)
    (by norm_num [COOLDOWN]) (by simp [tryAcquire])

/-! ## C2: three warns escalate and reset the ledger -/

/-- C2: from an absent entry, three `warn` commands for the same
(chat, user) return counts 1, 2 and 3; the first two do not escalate,
the third mutes for 3600 seconds and deletes the entry, and a
subsequent `get_warn_count` returns 0. -/
theorem warn_three_then_escalation (w : Warns) (chat user : ℤ)
    (habs : w (warnKey chat user) = none) :
    (warn_command w chat user).count = 1 ∧
    (warn_command w chat user).muted = false ∧
    (warn_command (warn_command w chat user).warns chat user).count = 2 ∧
    (warn_command (warn_command w chat user).warns chat user).muted = false ∧
    (warn_command (warn_command (warn_command w chat user).warns chat user).warns
        chat user).count = 3 ∧
    (warn_command (warn_command (warn_command w chat user).warns chat user).warns
        chat user).muted = true ∧
    (warn_command (warn_command (warn_command w chat user).warns chat user).warns
        chat user).muteSeconds = 3600 ∧
    (warn_command (warn_command (warn_command w chat user).warns chat user).warns
        chat user).warns (warnKey chat user) = none ∧
    get_warn_count
        (warn_command (warn_command (warn_command w chat user).warns chat user).warns
          chat user).warns chat user = 0 := by
  simp [warn_command, add_warn, get_warn_count, habs]

/-- C2 witness: the empty ledger, chat 1, user 2. -/
theorem warn_three_then_escalation_witness :
    (warn_command (fun _ => none) 1 2).count = 1 ∧
    (warn_command (fun _ => none) 1 2).muted = false ∧
    (warn_command (warn_command (fun _ => none) 1 2).warns 1 2).count = 2 ∧
    (warn_command (warn_command (fun _ => none) 1 2).warns 1 2).muted = false ∧
    (warn_command (warn_command (warn_command (fun _ => none) 1 2).warns 1 2).warns
        1 2).count = 3 ∧
    (warn_command (warn_command (warn_command (fun _ => none) 1 2).warns 1 2).warns
        1 2).muted = true ∧
    (warn_command (warn_command (warn_command (fun _ => none) 1 2).warns 1 2).warns
        1 2).muteSeconds = 3600 ∧
    (warn_command (warn_command (warn_command (fun _ => none) 1 2).warns 1 2).warns
        1 2).warns (warnKey 1 2) = none ∧
    get_warn_count
        (warn_command (warn_command (warn_command (fun _ => none) 1 2).warns 1 2).warns
          1 2).warns 1 2 = 0 :=
  warn_three_then_escalation (fun _ => none) 1 2 rfl

/-! ## C3: `add_warn` then `remove_warn` restores the ledger -/

/-- C3: on any ledger whose stored count for (chat, user) is positive
(absent entries read as 0), `add_warn` followed by `remove_warn` for
that pair restores the dictionary pointwise — in particular an entry
driven back to 0 is stored as absent and `get_warn_count` reads it as
0, so the round trip is the identity there too. -/
theorem add_then_remove_restores (w : Warns) (chat user : ℤ) (k : String)
    (hwf : ∀ v, w (warnKey chat user) = some v → 0 < v) :
    remove_warn ((add_warn w chat user).2) chat user k = w k ∧
    get_warn_count (remove_warn ((add_warn w chat user).2) chat user) chat user
      = get_warn_count w chat user := by
  have main : ∀ k2, remove_warn ((add_warn w chat user).2) chat user k2 = w k2 := by
    intro k2
    cases hv : w (warnKey chat user) with
    | none =>
      by_cases hk : k2 = warnKey chat user
      · subst hk
        simp [add_warn, remove_warn, hv]
      · simp [add_warn, remove_warn, hv, hk]
    | some v =>
      have hpos := hwf v hv
      have hnot : ¬ v ≤ 0 := by omega
      by_cases hk : k2 = warnKey chat user
      · subst hk
        simp [add_warn, remove_warn, hv, hnot]
      · simp [add_warn, remove_warn, hv, hnot, hk]
  exact ⟨main k, by simp [get_warn_count, main]⟩

/-- C3 witness: the empty ledger at chat 1, user 2, read back at the
warn key itself. -/
theorem add_then_remove_restores_witness :
    remove_warn ((add_warn (fun _ => none) 1 2).2) 1 2 (warnKey 1 2)
        = (fun _ => (none : Option ℤ)) (warnKey 1 2) ∧
    get_warn_count (remove_warn ((add_warn (fun _ => none) 1 2).2) 1 2) 1 2
        = get_warn_count (fun _ => none) 1 2 :=
  add_then_remove_restores (fun _ => none) 1 2 (warnKey 1 2)
    (fun v hv => absurd hv (by simp))

/-! ## C4: link normalization in `setchannellink` -/

/-- C4 counterexample: setting the schemeless link "t.me/x" for chat 5
stores it verbatim — the stored link is "t.me/x", which is not the
claimed "https://t.me/x", because the code skips the prefix for any
argument starting with "t.me". -/
theorem setchannellink_tme_counterexample :
    ((setchannellink (fun _ => none) 5 "t.me/x") "5").map WelcomeCfg.link
        = some (some "t.me/x") ∧
    ("t.me/x" : String) ≠ "https://t.me/x" := by
  constructor
  · decide
  · decide

/-- C4 amended: the "https://" prefix is prepended before storage
exactly when the argument starts with neither "http" nor "t.me"; an
argument starting with either is stored verbatim. -/
theorem setchannellink_normalization (ws : Welcomes) (chat : ℤ) (arg : String) :
    ((setchannellink ws chat arg) (toString chat)).map WelcomeCfg.link
      = some (some (if startsWithStr arg "http" || startsWithStr arg "t.me" then arg
                    else "https://" ++ arg)) := by
  simp [setchannellink, normalizeLink]

/-! ## C5: blacklist versus welcome rendering -/

/-- C5 counterexample: user 99 is globally blacklisted, yet a
`new_chat_members` service message for their join (the `legacy_welcome`
path) still produces a welcome rendering, because that handler never
consults the blacklist. -/
theorem legacy_welcome_blacklisted_counterexample :
    is_globally_blacklisted [99] 99 = true ∧
    legacy_welcome (setwelcometext (fun _ => none) 1 "hi") 1
        [⟨99, "B", none, "M", false⟩] ≠ [] := by
  constructor
  · decide
  · decide

/-- C5 amended: on the `chat_member`-update path
(`welcome_new_member`), a globally blacklisted acting user never
triggers welcome rendering; the legacy `new_chat_members` path performs
no blacklist check. -/
theorem welcome_new_member_blacklisted (ws : Welcomes) (bl : List ℤ) (chat : ℤ)
    (e : ChatMemberEvt) (h : is_globally_blacklisted bl e.from_user.id = true) :
    welcome_new_member ws bl chat e = [] := by
  simp only [welcome_new_member, h, Bool.or_true]
  split
  · rfl
  · rfl

/-- C5 amended witness: blacklisted user 99 joining a chat with a
configured welcome produces nothing on the `chat_member` path. -/
theorem welcome_new_member_blacklisted_witness :
    welcome_new_member (setwelcometext (fun _ => none) 1 "hi") [99] 1
        ⟨⟨99, "B", none, "M", false⟩, none, MemberStatus.member⟩ = [] :=
  welcome_new_member_blacklisted (setwelcometext (fun _ => none) 1 "hi") [99] 1
    ⟨⟨99, "B", none, "M", false⟩, none, MemberStatus.member⟩ (by decide)

/-! ## C6: banned-word matching is case-insensitive substring
containment -/

/-- C6: `has_banned_word` is true exactly when some stored word of the
chat, lowercased, occurs as a contiguous substring of the lowercased
text; in particular the word "badword" matches a text containing
"BadWord", and a fresh chat with only "spam" added matches
"no spam here" but not "clean text". -/
theorem has_banned_word_spec :
    (∀ (bw : BannedWords) (chat : ℤ) (text : String),
      has_banned_word bw chat text = true ↔
        ∃ w ∈ wordsOf bw chat, OccursIn (lowerStr w) (lowerStr text)) ∧
    has_banned_word (addword (fun _ => none) 7 "badword") 7 "Stop the BadWord now" = true ∧
    has_banned_word (addword (fun _ => none) 100 "spam") 100 "no spam here" = true ∧
    has_banned_word (addword (fun _ => none) 100 "spam") 100 "clean text" = false := by
  refine ⟨?_, by decide, by decide, by decide⟩
  intro bw chat text
  simp only [has_banned_word, List.any_eq_true, strOccurs, occursL_eq_true_iff, OccursIn]

/-! ## C7: welcome rendering -/

/-- C7: `render` returns `none` exactly when the chat's stored welcome
text is absent or empty (media or link alone never produce output);
when it returns a result, its text is the template with the four
placeholders substituted in source order ({first} with the "User"
fallback, {mention}, {id}, {username} with the first-name fallback),
its media is the stored reference with its kind (defaulting to
"photo"), and its link is the stored link when truthy.  The embedding
is a pure function of the store: the handler only reads `STORE`. -/
theorem render_spec (ws : Welcomes) (chat : ℤ) (m : Member) :
    (render ws chat m = none ↔
      truthyStr ((ws (toString chat)).getD emptyCfg).text = false) ∧
    (truthyStr ((ws (toString chat)).getD emptyCfg).text = true →
      render ws chat m =
        some ⟨renderText (((ws (toString chat)).getD emptyCfg).text.getD "") m,
              if truthyStr ((ws (toString chat)).getD emptyCfg).media then
                some (((ws (toString chat)).getD emptyCfg).media.getD "",
                      ((ws (toString chat)).getD emptyCfg).mtype.getD "photo")
              else none,
              if truthyStr ((ws (toString chat)).getD emptyCfg).link then
                ((ws (toString chat)).getD emptyCfg).link
              else none⟩) := by
  by_cases h : truthyStr ((ws (toString chat)).getD emptyCfg).text = true
  · simp [render, h]
  · simp only [Bool.not_eq_true] at h
    simp [render, h]

/-- C7 witness: chat 5 with template "Welcome {first}!" and member
Bob renders "Welcome Bob!" with no media and no link. -/
theorem render_spec_witness :
    render scenarioWelcomes 5 bobMember =
      some ⟨renderText (scenarioCfg.text.getD "") bobMember,
            if truthyStr scenarioCfg.media then
              some (scenarioCfg.media.getD "", scenarioCfg.mtype.getD "photo")
            else none,
            if truthyStr scenarioCfg.link then scenarioCfg.link else none⟩ :=
  (render_spec scenarioWelcomes 5 bobMember).2 (by decide)

/-! ## C8: the loader is total and default-merging -/

/-- C8: `load_store` always produces a document with all four fields:
a missing or unparseable snapshot yields the pure defaults, and a
parsed snapshot has each missing field substituted by its default. -/
theorem load_store_spec :
    load_store Snapshot.missing = defaultDoc ∧
    load_store Snapshot.corrupt = defaultDoc ∧
    (∀ d : RawDoc,
      (load_store (Snapshot.parsed d)).welcomes = d.welcomes.getD defaultDoc.welcomes ∧
      (load_store (Snapshot.parsed d)).blacklist = d.blacklist.getD defaultDoc.blacklist ∧
      (load_store (Snapshot.parsed d)).banned_words
          = d.banned_words.getD defaultDoc.banned_words ∧
      (load_store (Snapshot.parsed d)).warns = d.warns.getD defaultDoc.warns) :=
  ⟨rfl, rfl, fun _ => ⟨rfl, rfl, rfl, rfl⟩⟩

/-! ## C9: target resolution precedence -/

/-- C9: `get_target_user` returns the reply's author whenever the
message is a reply; otherwise, with an argument supplied, a
"@"-argument is resolved through the handle oracle first, any failure
of that branch falls through to parsing the argument as a numeric id
resolved through the id oracle, and the result is `none` only after
every branch has failed (no arguments, or an argument that neither
oracle resolves). -/
theorem get_target_user_spec (rh : String → Option Member) (ri : ℤ → Option Member)
    (reply : Option Member) (args : List String) :
    (∀ u, reply = some u → get_target_user rh ri reply args = some u) ∧
    (reply = none → args = [] → get_target_user rh ri reply args = none) ∧
    (∀ a rest u, reply = none → args = a :: rest → startsWithStr a "@" = true →
      rh a = some u → get_target_user rh ri reply args = some u) ∧
    (∀ a rest n, reply = none → args = a :: rest →
      (if startsWithStr a "@" then rh a else none) = none →
      parseInt a = some n → get_target_user rh ri reply args = ri n) ∧
    (∀ a rest, reply = none → args = a :: rest →
      (if startsWithStr a "@" then rh a else none) = none →
      parseInt a = none → get_target_user rh ri reply args = none) := by
  refine ⟨?_, ?_, ?_, ?_, ?_⟩
  · intro u hr
    subst hr
    rfl
  · intro hr ha
    subst hr; subst ha
    rfl
  · intro a rest u hr ha hat hrh
    subst hr; subst ha
    simp [get_target_user, hat, hrh]
  · intro a rest n hr ha hno hint
    subst hr; subst ha
    simp only [get_target_user, hno, hint]
  · intro a rest hr ha hno hint
    subst hr; subst ha
    simp only [get_target_user, hno, hint]

/-- C9 witness: with no reply and the single argument "@bob", the
handle oracle's answer is returned. -/
theorem get_target_user_spec_witness :
    get_target_user (fun s => if s = "@bob" then some bobMember else none)
        (fun _ => none) none ["@bob"] = some bobMember :=
  (get_target_user_spec (fun s => if s = "@bob" then some bobMember else none)
      (fun _ => none) none ["@bob"]).2.2.1 "@bob" [] bobMember rfl rfl
    (by decide) (by decide)

/-! ## C10: the mute-duration parser -/

/-- When the lowercased input splits into a non-empty all-digit run
followed by a digit-free remainder, `parse_duration` converts the run
with the unit taken from the remainder's head. -/
theorem parse_duration_split (s : String) (ds rest : List Char)
    (hl : (lowerStr s).data = ds ++ rest) (hne : ds ≠ [])
    (hds : ∀ c ∈ ds, c.isDigit = true)
    (hrest : ∀ c, rest.head? = some c → c.isDigit = false) :
    parse_duration s = unitSeconds (unitOf rest) (digitsToNat ds) := by
  have h := takeWhile_dropWhile_append Char.isDigit ds rest hds hrest
  have hemp : ds.isEmpty = false := by
    cases ds with
    | nil => exact absurd rfl hne
    | cons c cs => rfl
  simp only [parse_duration, hl, h.1, h.2, hemp, Bool.false_eq_true, if_false]

/-- C10: `parse_duration` is total and defaulting: an input whose
lowercased form does not begin with an ASCII digit yields the 1-hour
default (3600 s); a leading digit run with no unit suffix is read as
hours; the suffixes s, m, h and d select seconds, minutes, hours and
days; any other character after the digits also falls back to hours. -/
theorem parse_duration_total_spec :
    (∀ s : String, (∀ c, (lowerStr s).data.head? = some c → c.isDigit = false) →
      parse_duration s = 3600) ∧
    (∀ (s : String) (ds : List Char), (lowerStr s).data = ds → ds ≠ [] →
      (∀ c ∈ ds, c.isDigit = true) → parse_duration s = digitsToNat ds * 3600) ∧
    (∀ (s : String) (ds rest : List Char), (lowerStr s).data = ds ++ 's' :: rest →
      ds ≠ [] → (∀ c ∈ ds, c.isDigit = true) → parse_duration s = digitsToNat ds) ∧
    (∀ (s : String) (ds rest : List Char), (lowerStr s).data = ds ++ 'm' :: rest →
      ds ≠ [] → (∀ c ∈ ds, c.isDigit = true) →
      parse_duration s = digitsToNat ds * 60) ∧
    (∀ (s : String) (ds rest : List Char), (lowerStr s).data = ds ++ 'h' :: rest →
      ds ≠ [] → (∀ c ∈ ds, c.isDigit = true) →
      parse_duration s = digitsToNat ds * 3600) ∧
    (∀ (s : String) (ds rest : List Char), (lowerStr s).data = ds ++ 'd' :: rest →
      ds ≠ [] → (∀ c ∈ ds, c.isDigit = true) →
      parse_duration s = digitsToNat ds * 86400) ∧
    (∀ (s : String) (ds rest : List Char) (u : Char),
      (lowerStr s).data = ds ++ u :: rest → ds ≠ [] →
      (∀ c ∈ ds, c.isDigit = true) → u.isDigit = false →
      u ≠ 's' → u ≠ 'm' → u ≠ 'h' → u ≠ 'd' →
      parse_duration s = digitsToNat ds * 3600) := by
  have headFree : ∀ (u : Char) (rest : List Char), u.isDigit = false →
      ∀ c, (u :: rest).head? = some c → c.isDigit = false := by
    intro u rest hu c hc
    simp only [List.head?, Option.some.injEq] at hc
    subst hc
    exact hu
  refine ⟨?_, ?_, ?_, ?_, ?_, ?_, ?_⟩
  · intro s h
    simp only [parse_duration]
    cases hl : (lowerStr s).data with
    | nil => simp
    | cons c t =>
      have hc : c.isDigit = false := h c (by rw [hl]; rfl)
      simp [hc]
  · intro s ds hl hne hds
    have := parse_duration_split s ds [] (by simpa using hl) hne hds
      (fun c hc => by cases hc)
    simpa [unitSeconds] using this
  · intro s ds rest hl hne hds
    have := parse_duration_split s ds ('s' :: rest) hl hne hds
      (headFree 's' rest (by decide))
    simpa [unitSeconds] using this
  · intro s ds rest hl hne hds
    have := parse_duration_split s ds ('m' :: rest) hl hne hds
      (headFree 'm' rest (by decide))
    simpa [unitSeconds] using this
  · intro s ds rest hl hne hds
    have := parse_duration_split s ds ('h' :: rest) hl hne hds
      (headFree 'h' rest (by decide))
    simpa [unitSeconds] using this
  · intro s ds rest hl hne hds
    have := parse_duration_split s ds ('d' :: rest) hl hne hds
      (headFree 'd' rest (by decide))
    simpa [unitSeconds] using this
  · intro s ds rest u hl hne hds hu hs hm hh hd
    have := parse_duration_split s ds (u :: rest) hl hne hds (headFree u rest hu)
    simpa [unitSeconds, unitOf, hs, hm, hh, hd] using this

/-- C10 witness: "10m" parses to 600 seconds via the minute branch. -/
theorem parse_duration_total_spec_witness :
    parse_duration "10m" = digitsToNat ['1', '0'] * 60 :=
  parse_duration_total_spec.2.2.2.1 "10m" ['1', '0'] [] (by decide) (by decide)
    (by decide)

end Dres
